import Mathlib

/-!
Verification of the keyword-notification pipeline of `src/main.py`
(`handle_message`, lines 54-150) against its natural-language specification.

The handler is shallowly embedded as pure Lean functions:

* Python strings become `String` / `List Char`; Python `needle in hay` becomes
  `containsSub`; `str.lower()` becomes `lowerStr` (ASCII lowering, the case
  distinction the rules exercise); `str.split()` word counting becomes
  `wordCount`.
* A rule dict read with `keyword.get(field, default)` becomes a `RuleRecord`
  of `Option`-valued fields read through `Option.getD` with the code's
  defaults.
* The Redis store becomes an explicit `Store` value: the rule-set entry
  `listener:keywords` is a `RulesValue` (absent/empty string, unparsable
  JSON, JSON whose iteration raises, or a parsed rule list); each
  per-recipient push list `listener:push:messages:<user_id>` is kept in
  `queues`, keyed by the rule's `user_id`, with its absolute expiry time in
  `expiry`.  `rpushQueue` models `redis_client.rpush`, `expireKey` models
  `redis_client.expire` (`expire(key, 86400)` at time `now` is recorded as
  absolute expiry `now + 86400`).  The flags `getFails` / `rpushFails` /
  `expireFails` inject store failures (the awaited call raises) at the three
  store calls.
* `handleBody` is the body of the `try:` block; `BodyOut` carries the store
  after the body, whether the body raised, which recipient key (if any) was
  pushed, and ghost flags recording whether the rule-set read and the queue
  append were ever invoked.  `handleMessage` is the whole handler: the
  `except Exception` swallows the raise and keeps the effects so far.
-/

/-- A Telegram user as `handle_message` reads it: `message.from_user`. -/
structure User where
  id : Int
  is_self : Bool
  is_bot : Bool
  username : Option String
  full_name : String
deriving DecidableEq

/-- The chat of a message; `type_value` is `message.chat.type.value`. -/
structure Chat where
  id : Int
  type_value : String
  title : Option String
  username : Option String
deriving DecidableEq

/-- An inbound message; `date` is the message timestamp in epoch seconds
(`message.date.timestamp()`). -/
structure Message where
  id : Int
  link : Option String
  chat : Chat
  from_user : Option User
  text : Option String
  caption : Option String
  date : Int
deriving DecidableEq

/-- One parsed rule dict from the `listener:keywords` JSON.  Every field the
code reads with `keyword.get(name, default)` is optional here and read back
through `Option.getD` with the code's default (`is_active` false,
`match_pattern` "exact", `word_limit` 0, `has_username` falsy, `keyword` "",
`user_id` None).  `has_username` is the truthiness of the stored value. -/
structure RuleRecord where
  is_active : Option Bool
  match_pattern : Option String
  word_limit : Option Int
  has_username : Option Bool
  keyword : Option String
  user_id : Option Int
deriving DecidableEq

/-- The serialized notification record `push_data` (main.py lines 123-136). -/
structure PushData where
  message_id : Int
  message_link : Option String
  chat_title : Option String
  chat_username : Option String
  chat_type : String
  chat_id : Int
  user_name : Option String
  user_full_name : String
  user_id : Int
  text : String
  date : Int
  matched_keyword : String
deriving DecidableEq

/-- The value of the `listener:keywords` entry, collapsed to the behaviours
the code distinguishes: `absent` is a missing key or an empty (falsy) string
(line 84 `if not keywords: return`); `unparsable` makes `json.loads` raise
(line 87); `nonList` parses but its iteration raises at the first element
(line 91, before any push); `rules rs` is a parsed list of rule dicts. -/
inductive RulesValue where
  | absent : RulesValue
  | unparsable : RulesValue
  | nonList : RulesValue
  | rules : List RuleRecord → RulesValue
deriving DecidableEq

/-- The external Redis store plus failure-injection flags for its three
calls (`get`, `rpush`, `expire`): a set flag makes that awaited call raise. -/
structure Store where
  rulesValue : RulesValue
  queues : Option Int → List PushData
  expiry : Option Int → Option Int
  getFails : Bool
  rpushFails : Bool
  expireFails : Bool

/-- A store holding the given rule-set value, empty queues, no expiries and
no injected failures. -/
def storeOf (rv : RulesValue) : Store :=
  ⟨rv, fun _ => [], fun _ => none, false, false, false⟩

/-- `redis_client.rpush(key, data)`: append to the tail of the list at the
recipient key (main.py line 140). -/
def rpushQueue (s : Store) (k : Option Int) (pd : PushData) : Store :=
  { s with queues := fun k2 => if k2 = k then s.queues k ++ [pd] else s.queues k2 }

/-- `redis_client.expire(key, 86400)` issued at absolute time giving expiry
`t`: (re-)set the key's time-to-live (main.py line 143). -/
def expireKey (s : Store) (k : Option Int) (t : Int) : Store :=
  { s with expiry := fun k2 => if k2 = k then some t else s.expiry k2 }

/-- Python truthiness of an optional string: `None` and `""` are falsy. -/
def truthyStr : Option String → Bool
  | none => false
  | some s => !(s = "")

/-- Python `a or b` for an optional string `a` and a string `b`. -/
def pyOrStr (a : Option String) (b : String) : String :=
  match a with
  | some s => if s = "" then b else s
  | none => b

/-- `message.text or message.caption or ""` (main.py lines 62 and 104). -/
def messageText (m : Message) : String :=
  pyOrStr m.text (pyOrStr m.caption "")

/-- `needle` occurs as a contiguous sublist of `hay` (Python `needle in hay`
on strings, as a scan over character lists). -/
def containsSub : List Char → List Char → Bool
  | needle, [] => needle.isEmpty
  | needle, c :: rest => needle.isPrefixOf (c :: rest) || containsSub needle rest

/-- Python `needle in hay` for strings. -/
def strContains (hay needle : String) : Bool :=
  containsSub needle.data hay.data

/-- Python `str.lower()` (ASCII case folding). -/
def lowerStr (s : String) : String :=
  String.mk (s.data.map Char.toLower)

/-- Helper for `wordCount`: counts maximal runs of non-whitespace characters;
`inWord` says whether the previous character was inside a word. -/
def wordCountAux : List Char → Bool → Nat
  | [], _ => 0
  | c :: rest, inWord =>
    if c.isWhitespace then wordCountAux rest false
    else (if inWord then 0 else 1) + wordCountAux rest true

/-- Python `len(s.split())`: the number of whitespace-delimited words. -/
def wordCount (s : String) : Nat :=
  wordCountAux s.data false

/-- The candidate-match test for one rule (main.py lines 105-111): `exact`
is a case-sensitive literal substring test, `fuzzy` lower-cases both sides
first, any other pattern value matches nothing. -/
def candidateMatch (r : RuleRecord) (mt : String) : Bool :=
  if r.match_pattern.getD "exact" = "exact" then
    strContains mt (r.keyword.getD "")
  else if r.match_pattern.getD "exact" = "fuzzy" then
    strContains (lowerStr mt) (lowerStr (r.keyword.getD ""))
  else false

/-- The username gate (main.py line 114): `has_username` is truthy and the
sender has no (truthy) username. -/
def usernameGate (r : RuleRecord) (u : User) : Bool :=
  r.has_username.getD false && !(truthyStr u.username)

/-- The word-limit gate (main.py line 118): `word_limit > 0` and the word
count of the message text is below it. -/
def wordLimitGate (r : RuleRecord) (mt : String) : Bool :=
  decide (0 < r.word_limit.getD 0) && decide ((wordCount mt : Int) < r.word_limit.getD 0)

/-- The rule loop of main.py lines 91-147 with the accumulator `is_push`
threaded exactly as in the code: `is_push` is initialized once by the caller
(line 89) and never cleared inside the loop; an inactive rule is skipped
before the candidate test; a gate-failed rule is skipped after the candidate
test has already been or-ed into `is_push`; the loop stops and returns the
current rule as soon as `is_push` is set when both gates pass. -/
def findMatch (u : User) (mt : String) : Bool → List RuleRecord → Option RuleRecord
  | _, [] => none
  | is_push, r :: rest =>
    if r.is_active.getD false = false then
      findMatch u mt is_push rest
    else
      let is_push2 := is_push || candidateMatch r mt
      if usernameGate r u then
        findMatch u mt is_push2 rest
      else if wordLimitGate r mt then
        findMatch u mt is_push2 rest
      else if is_push2 then some r
      else findMatch u mt is_push2 rest

/-- The `push_data` dict (main.py lines 123-136) built from the message, its
sender, the computed message text and the selected rule's keyword. -/
def buildPushData (m : Message) (u : User) (mt : String) (kw : String) : PushData :=
  { message_id := m.id
    message_link := m.link
    chat_title := m.chat.title
    chat_username := m.chat.username
    chat_type := m.chat.type_value
    chat_id := m.chat.id
    user_name := u.username
    user_full_name := u.full_name
    user_id := u.id
    text := mt
    date := m.date
    matched_keyword := kw }

/-- What one run of the `try:` body of `handle_message` produced: the store
after the body, whether the body raised (to be swallowed by the
`except Exception` at line 149), which recipient key was pushed (if any),
and ghost flags saying whether the rule-set read (`redis_client.get`) and
the queue append (`redis_client.rpush`) were invoked. -/
structure BodyOut where
  store : Store
  raised : Bool
  pushedTo : Option (Option Int)
  accessedRules : Bool
  accessedQueue : Bool

/-- The body of the `try:` block of `handle_message` (main.py lines 55-147):
pre-filter in source order (no sender, sender is self, no text/caption,
private chat, sender is a bot), then the rule-set read, JSON parse, rule
loop, and on a match the `rpush` followed by `expire` with a 24-hour TTL. -/
def handleBody (m : Message) (now : Int) (s : Store) : BodyOut :=
  match m.from_user with
  | none => ⟨s, false, none, false, false⟩
  | some u =>
    if u.is_self then ⟨s, false, none, false, false⟩
    else if messageText m = "" then ⟨s, false, none, false, false⟩
    else if m.chat.type_value = "private" then ⟨s, false, none, false, false⟩
    else if u.is_bot then ⟨s, false, none, false, false⟩
    else if s.getFails then ⟨s, true, none, true, false⟩
    else
      match s.rulesValue with
      | RulesValue.absent => ⟨s, false, none, true, false⟩
      | RulesValue.unparsable => ⟨s, true, none, true, false⟩
      | RulesValue.nonList => ⟨s, true, none, true, false⟩
      | RulesValue.rules rs =>
        match findMatch u (messageText m) false rs with
        | none => ⟨s, false, none, true, false⟩
        | some r =>
          if s.rpushFails then ⟨s, true, none, true, true⟩
          else
            let s1 := rpushQueue s r.user_id (buildPushData m u (messageText m) (r.keyword.getD ""))
            if s.expireFails then ⟨s1, true, none, true, true⟩
            else ⟨expireKey s1 r.user_id (now + 24 * 60 * 60), false, some r.user_id, true, true⟩

/-- The whole `handle_message` handler: the `except Exception` at main.py
line 149 swallows any raise from the body, keeps the effects made so far and
returns normally. -/
def handleMessage (m : Message) (now : Int) (s : Store) : Store :=
  (handleBody m now s).store

/-- The pre-filter conditions of claim C4: no resolvable sender, sender is
self, sender is a bot, private chat, or both text and caption empty/absent. -/
def preFiltered (m : Message) : Bool :=
  match m.from_user with
  | none => true
  | some u =>
    u.is_self || u.is_bot || decide (m.chat.type_value = "private")
      || decide (messageText m = "")

/-- Modelled from the spec (claim C1's reading of the Matcher): the first
rule in sequence order whose OWN keyword candidate-matches the text and
whose username/word-limit gates pass.  This is the comparison point for the
refutation of C1; the code's loop is `findMatch`. -/
def specFirstMatch (u : User) (mt : String) : List RuleRecord → Option RuleRecord
  | [] => none
  | r :: rest =>
    if r.is_active.getD false && candidateMatch r mt
        && !(usernameGate r u) && !(wordLimitGate r mt) then some r
    else specFirstMatch u mt rest

/-- One step of the `is_push` latch: what `is_push` holds after the loop
body has processed rule `r` without selecting it. -/
def stepLatch (mt : String) (b : Bool) (r : RuleRecord) : Bool :=
  b || (r.is_active.getD false && candidateMatch r mt)

/-- The `is_push` latch after a prefix of the rule list has been processed
without a selection. -/
def latchFold (mt : String) (b : Bool) (rs : List RuleRecord) : Bool :=
  rs.foldl (stepLatch mt) b

/-- Rule `r` stops the loop when the latch holds `b` as the loop reaches it:
`r` is active, both gates pass, and `b` or `r`'s own candidate test is set. -/
def selectable (u : User) (mt : String) (b : Bool) (r : RuleRecord) : Bool :=
  r.is_active.getD false && !(usernameGate r u) && !(wordLimitGate r mt)
    && (b || candidateMatch r mt)

/-! ## Helper lemmas shared by the claims -/

/-- The scan `containsSub` decides contiguous-sublist containment. -/
theorem containsSub_iff_infix (needle hay : List Char) :
    containsSub needle hay = true ↔ needle <:+: hay := by
  induction hay with
  | nil => simp [containsSub, List.isEmpty_iff, List.infix_nil]
  | cons c rest ih =>
    simp [containsSub, ih, List.infix_cons_iff, List.isPrefixOf_iff_prefix]

/-- The empty needle is contained in every haystack (Python: the empty
string is a substring of every string). -/
theorem containsSub_nil_left (hay : List Char) : containsSub [] hay = true := by
  induction hay with
  | nil => rfl
  | cons c rest ih => simp [containsSub, ih, List.isPrefixOf]

/-- An inactive rule leaves the latch unchanged. -/
theorem stepLatch_inactive {r : RuleRecord} (mt : String) (b : Bool)
    (h : r.is_active.getD false = false) : stepLatch mt b r = b := by
  simp [stepLatch, h]

/-- `latchFold` unfolds one step at a time. -/
theorem latchFold_cons (mt : String) (b : Bool) (r : RuleRecord) (rs : List RuleRecord) :
    latchFold mt b (r :: rs) = latchFold mt (stepLatch mt b r) rs := rfl

/-- The loop stops at a selectable rule and returns it. -/
theorem findMatch_cons_stop {u : User} {mt : String} {b : Bool} {r : RuleRecord}
    (rest : List RuleRecord) (h : selectable u mt b r = true) :
    findMatch u mt b (r :: rest) = some r := by
  simp only [selectable, Bool.and_eq_true, Bool.not_eq_eq_eq_not, Bool.not_true] at h
  obtain ⟨⟨⟨h1, h2⟩, h3⟩, h4⟩ := h
  simp [findMatch, h1, h2, h3, h4]

/-- The loop skips a non-selectable rule, carrying the latch forward:
whether the rule is inactive, fails a gate, or simply has the latch and its
own candidate both unset, the loop continues on the rest of the list with
the latch updated by `stepLatch`. -/
theorem findMatch_cons_skip {u : User} {mt : String} {b : Bool} {r : RuleRecord}
    (rest : List RuleRecord) (h : selectable u mt b r = false) :
    findMatch u mt b (r :: rest) = findMatch u mt (stepLatch mt b r) rest := by
  by_cases h1 : r.is_active.getD false = true
  · by_cases h2 : usernameGate r u = true
    · simp [findMatch, h1, h2, stepLatch]
    · replace h2 : usernameGate r u = false := by
        cases hx : usernameGate r u <;> simp_all
      by_cases h3 : wordLimitGate r mt = true
      · simp [findMatch, h1, h2, h3, stepLatch]
      · replace h3 : wordLimitGate r mt = false := by
          cases hx : wordLimitGate r mt <;> simp_all
        have h4 : (b || candidateMatch r mt) = false := by
          simp only [selectable, h1, h2, h3] at h
          simpa using h
        simp [findMatch, h1, h2, h3, h4, stepLatch]
  · replace h1 : r.is_active.getD false = false := by
      cases hx : r.is_active.getD false <;> simp_all
    simp [findMatch, h1, stepLatch]

/-- A rule the loop returns is active. -/
theorem findMatch_some_active {u : User} {mt : String} :
    ∀ {rs : List RuleRecord} {b : Bool} {r : RuleRecord},
      findMatch u mt b rs = some r → r.is_active.getD false = true := by
  intro rs
  induction rs with
  | nil => intro b r h; simp [findMatch] at h
  | cons r0 rest ih =>
    intro b r h
    by_cases hsel : selectable u mt b r0 = true
    · rw [findMatch_cons_stop rest hsel] at h
      cases h
      simp only [selectable, Bool.and_eq_true] at hsel
      exact hsel.1.1.1
    · replace hsel : selectable u mt b r0 = false := by
        cases hx : selectable u mt b r0 <;> simp_all
      rw [findMatch_cons_skip rest hsel] at h
      exact ih h

/-! ## Claim C1 -/

/-- Claim C1 (amended): the per-rule candidate flag `is_push` is a latch,
initialized false once before the loop and never cleared; each active rule
or-s its own candidate test into it.  The loop selects rule `r` exactly when
the list splits as `pre ++ r :: post` with `r` active, both of `r`'s gates
passing, the latch (folded over `pre`, plus `r`'s own candidate) set, and no
rule of `pre` already selectable at its own latch value.  In particular a
rule whose candidate is true but whose gate fails latches the flag and can
make a later active gate-passing rule with a false own candidate the
selection. -/
theorem c1_latched_first_match (u : User) (mt : String) :
    ∀ (rs : List RuleRecord) (b : Bool) (r : RuleRecord),
      findMatch u mt b rs = some r ↔
        ∃ pre post, rs = pre ++ r :: post
          ∧ selectable u mt (latchFold mt b pre) r = true
          ∧ ∀ pre1 r2 pre2, pre = pre1 ++ r2 :: pre2 →
              selectable u mt (latchFold mt b pre1) r2 = false := by
  intro rs
  induction rs with
  | nil =>
    intro b r
    constructor
    · intro h; simp [findMatch] at h
    · rintro ⟨pre, post, habs, -, -⟩
      exact absurd habs.symm (by simp)
  | cons r0 rest ih =>
    intro b r
    by_cases hsel : selectable u mt b r0 = true
    · rw [findMatch_cons_stop rest hsel]
      constructor
      · intro h
        cases h
        refine ⟨[], rest, rfl, by simpa [latchFold] using hsel, ?_⟩
        rintro pre1 r2 pre2 h
        exact absurd h.symm (by simp)
      · rintro ⟨pre, post, heq, hs, hmin⟩
        cases pre with
        | nil =>
          simp only [List.nil_append, List.cons.injEq] at heq
          rw [heq.1]
        | cons p0 pre2 =>
          simp only [List.cons_append, List.cons.injEq] at heq
          have hfirst := hmin [] p0 pre2 rfl
          rw [← heq.1] at hfirst
          simp only [latchFold, List.foldl_nil] at hfirst
          rw [hsel] at hfirst
          cases hfirst
    · replace hsel : selectable u mt b r0 = false := by
        cases hx : selectable u mt b r0 <;> simp_all
      rw [findMatch_cons_skip rest hsel, ih (stepLatch mt b r0) r]
      constructor
      · rintro ⟨pre, post, heq, hs, hmin⟩
        refine ⟨r0 :: pre, post, by rw [heq, List.cons_append], ?_, ?_⟩
        · simpa [latchFold_cons] using hs
        · rintro pre1 r2 pre2 hpre
          cases pre1 with
          | nil =>
            simp only [List.nil_append, List.cons.injEq] at hpre
            rw [← hpre.1]
            simpa [latchFold] using hsel
          | cons q qs =>
            simp only [List.cons_append, List.cons.injEq] at hpre
            obtain ⟨hq, hrest⟩ := hpre
            subst hq
            have := hmin qs r2 pre2 hrest
            simpa [latchFold_cons] using this
      · rintro ⟨pre, post, heq, hs, hmin⟩
        cases pre with
        | nil =>
          simp only [List.nil_append, List.cons.injEq] at heq
          obtain ⟨h1, -⟩ := heq
          subst h1
          simp only [latchFold, List.foldl_nil] at hs
          rw [hsel] at hs
          cases hs
        | cons q qs =>
          simp only [List.cons_append, List.cons.injEq] at heq
          obtain ⟨hq, hrest⟩ := heq
          subst hq
          refine ⟨qs, post, hrest, by simpa [latchFold_cons] using hs, ?_⟩
          rintro pre1 r2 pre2 hpre
          have := hmin (r0 :: pre1) r2 pre2 (by rw [hpre, List.cons_append])
          simpa [latchFold_cons] using this

/-! ## Concrete data used by counterexamples and witnesses -/

/-- A sender with no username. -/
def exUserNoName : User := ⟨10, false, false, none, "Alice A"⟩

/-- A sender with a username. -/
def exUserNamed : User := ⟨11, false, false, some "bob", "Bob B"⟩

/-- A supergroup chat. -/
def exChat : Chat := ⟨-1001, "supergroup", some "Group", some "grp"⟩

/-- An active exact-match rule on "foo" that requires the sender to have a
username. -/
def c1r1 : RuleRecord := ⟨some true, some "exact", none, some true, some "foo", some 1⟩

/-- An active exact-match rule on "zzz" with no gates. -/
def c1r2 : RuleRecord := ⟨some true, some "exact", none, none, some "zzz", some 2⟩

/-- Counterexample to claim C1 as stated, at message text "foo bar" from a
sender with no username against rules `[c1r1, c1r2]`: rule 1's candidate is
true but its username gate fails, and the loop then selects rule 2 even
though rule 2's own candidate is false — while the first rule whose own
candidate matches and whose gates pass (the claim's selection, modelled by
`specFirstMatch`) does not exist at all. -/
theorem c1_counterexample :
    findMatch exUserNoName "foo bar" false [c1r1, c1r2] = some c1r2
    ∧ candidateMatch c1r1 "foo bar" = true
    ∧ usernameGate c1r1 exUserNoName = true
    ∧ candidateMatch c1r2 "foo bar" = false
    ∧ specFirstMatch exUserNoName "foo bar" [c1r1, c1r2] = none := by
  refine ⟨by decide, by decide, by decide, by decide, by decide⟩

/-! ## Claims C2, C3, C4 -/

/-- Claim C2: when the rule-set entry is absent or an empty string, is not
parsable as JSON, or parses to an empty rule list, ingesting any message
leaves the store untouched (in particular no queue push), reports no
recipient and never reaches the queue append; the raise from `json.loads`
is swallowed by the handler, which returns normally. -/
theorem c2_malformed_rules_no_push (m : Message) (now : Int) (s : Store)
    (h : s.rulesValue = RulesValue.absent ∨ s.rulesValue = RulesValue.unparsable
      ∨ s.rulesValue = RulesValue.rules []) :
    handleMessage m now s = s ∧ (handleBody m now s).pushedTo = none
    ∧ (handleBody m now s).accessedQueue = false := by
  unfold handleMessage handleBody
  cases hfu : m.from_user with
  | none => exact ⟨rfl, rfl, rfl⟩
  | some u =>
    simp only
    split_ifs <;> try exact ⟨rfl, rfl, rfl⟩
    all_goals rcases h with h | h | h <;> rw [h] <;> exact ⟨rfl, rfl, rfl⟩

/-- Claim C3: the handler never propagates an exception: whenever the body
raises (malformed rule data or an injected store failure), `handleMessage`
still returns the body's store unchanged from the point of the raise, and
no notification outcome is reported. -/
theorem c3_ingest_never_raises (m : Message) (now : Int) (s : Store)
    (h : (handleBody m now s).raised = true) :
    handleMessage m now s = (handleBody m now s).store
    ∧ (handleBody m now s).pushedTo = none := by
  refine ⟨rfl, ?_⟩
  unfold handleBody at h ⊢
  repeat' split at h
  all_goals simp_all

/-- Claim C4: a message failing the pre-filter is dropped before any store
access: neither the rule-set read nor the queue append is invoked. -/
theorem c4_prefilter_no_store_access (m : Message) (now : Int) (s : Store)
    (h : preFiltered m = true) :
    (handleBody m now s).accessedRules = false
    ∧ (handleBody m now s).accessedQueue = false := by
  unfold handleBody
  unfold preFiltered at h
  cases hfu : m.from_user with
  | none => exact ⟨rfl, rfl⟩
  | some u =>
    rw [hfu] at h
    simp only [Bool.or_eq_true, decide_eq_true_eq] at h
    simp only
    split_ifs with h1 h2 h3 h4 <;> try exact ⟨rfl, rfl⟩
    all_goals rcases h with ((h | h) | h) | h <;> simp_all

/-- A message that passes the pre-filter: group chat, human non-self sender,
text "foo bar". -/
def exMsgFoo : Message :=
  ⟨55, some "https://t.me/grp/55", exChat, some exUserNoName, some "foo bar", none, 1700000000⟩

/-- Witness for C2 at a concrete input: an unparsable rule-set entry and a
message that passes the pre-filter. -/
theorem c2_witness :
    handleMessage exMsgFoo 0 (storeOf RulesValue.unparsable) = storeOf RulesValue.unparsable
    ∧ (handleBody exMsgFoo 0 (storeOf RulesValue.unparsable)).pushedTo = none
    ∧ (handleBody exMsgFoo 0 (storeOf RulesValue.unparsable)).accessedQueue = false :=
  c2_malformed_rules_no_push exMsgFoo 0 (storeOf RulesValue.unparsable) (Or.inr (Or.inl rfl))

/-- Witness for C3 at a concrete input where the body really raises: the
`json.loads` failure on an unparsable rule set (15 is the wall-clock used
for the ingest). -/
theorem c3_witness :
    handleMessage exMsgFoo 15 (storeOf RulesValue.unparsable)
      = (handleBody exMsgFoo 15 (storeOf RulesValue.unparsable)).store
    ∧ (handleBody exMsgFoo 15 (storeOf RulesValue.unparsable)).pushedTo = none :=
  c3_ingest_never_raises exMsgFoo 15 (storeOf RulesValue.unparsable) (by decide)

/-- A pre-filtered message: the sender is a bot. -/
def c4msg : Message :=
  ⟨57, none, exChat, some ⟨12, false, true, some "helper", "Helper"⟩, some "foo", none, 1700000050⟩

/-- Witness for C4 at a concrete input: a bot's message is dropped even
though the store holds an active rule whose keyword is in the text. -/
theorem c4_witness :
    (handleBody c4msg 0 (storeOf (RulesValue.rules [c1r1]))).accessedRules = false
    ∧ (handleBody c4msg 0 (storeOf (RulesValue.rules [c1r1]))).accessedQueue = false :=
  c4_prefilter_no_store_access c4msg 0 (storeOf (RulesValue.rules [c1r1])) (by decide)

/-! ## Claim C5 -/

/-- Claim C5: a push appends the serialized record to the tail of the
recipient's queue and then sets that key's TTL to 24 hours; two pushes to
the same recipient within 24 hours leave both entries in push order with
the TTL of the most recent push.  `expireKey` records the absolute expiry,
so the TTL set at `t1` is overwritten by the one set at `t2`. -/
theorem c5_push_append_ttl (s : Store) (k : Option Int) (pd1 pd2 : PushData) (t1 t2 : Int)
    (h1 : t1 ≤ t2) (h2 : t2 < t1 + 24 * 60 * 60) :
    ((expireKey (rpushQueue s k pd1) k (t1 + 24 * 60 * 60)).queues k = s.queues k ++ [pd1]
      ∧ (expireKey (rpushQueue s k pd1) k (t1 + 24 * 60 * 60)).expiry k
          = some (t1 + 24 * 60 * 60))
    ∧ ((expireKey (rpushQueue (expireKey (rpushQueue s k pd1) k (t1 + 24 * 60 * 60)) k pd2) k
          (t2 + 24 * 60 * 60)).queues k = s.queues k ++ [pd1, pd2]
      ∧ (expireKey (rpushQueue (expireKey (rpushQueue s k pd1) k (t1 + 24 * 60 * 60)) k pd2) k
          (t2 + 24 * 60 * 60)).expiry k = some (t2 + 24 * 60 * 60)) := by
  refine ⟨⟨?_, ?_⟩, ?_, ?_⟩ <;> simp [rpushQueue, expireKey]

/-- A sample serialized notification. -/
def pdA : PushData :=
  ⟨1, none, some "Group", some "grp", "supergroup", -1001, some "bob", "Bob B", 11, "hello", 100, "kw"⟩

/-- A second sample serialized notification. -/
def pdB : PushData :=
  ⟨2, none, some "Group", some "grp", "supergroup", -1001, some "bob", "Bob B", 11, "hello again", 200, "kw"⟩

/-- Witness for C5 at concrete pushes 100 seconds apart. -/
theorem c5_witness :
    ((expireKey (rpushQueue (storeOf RulesValue.absent) (some 7) pdA) (some 7)
        (100 + 24 * 60 * 60)).queues (some 7) = [pdA]
      ∧ (expireKey (rpushQueue (storeOf RulesValue.absent) (some 7) pdA) (some 7)
          (100 + 24 * 60 * 60)).expiry (some 7) = some (100 + 24 * 60 * 60))
    ∧ ((expireKey (rpushQueue (expireKey (rpushQueue (storeOf RulesValue.absent) (some 7) pdA)
          (some 7) (100 + 24 * 60 * 60)) (some 7) pdB) (some 7)
          (200 + 24 * 60 * 60)).queues (some 7) = [pdA, pdB]
      ∧ (expireKey (rpushQueue (expireKey (rpushQueue (storeOf RulesValue.absent) (some 7) pdA)
          (some 7) (100 + 24 * 60 * 60)) (some 7) pdB) (some 7)
          (200 + 24 * 60 * 60)).expiry (some 7) = some (200 + 24 * 60 * 60)) :=
  c5_push_append_ttl (storeOf RulesValue.absent) (some 7) pdA pdB 100 200
    (by decide) (by decide)

/-! ## Claim C6 -/

/-- Claim C6 (amended): each failing gate (username requirement, word
limit) skips its rule and iteration continues with the next rule, and the
gates are evaluated regardless of the candidate flag — but only after the
rule's own candidate has been or-ed into the latch, so the skipped rule
still contributes its candidate.  A gate-skipped rule that is the only rule
in the set yields no match; the unamended consequence "the only candidate
implies no match" fails because the latched candidate can select a later
gate-passing rule (see the counterexample). -/
theorem c6_gate_skip_semantics :
    (∀ (u : User) (mt : String) (b : Bool) (r : RuleRecord) (rest : List RuleRecord),
      r.is_active.getD false = true → (usernameGate r u || wordLimitGate r mt) = true →
      findMatch u mt b (r :: rest) = findMatch u mt (b || candidateMatch r mt) rest)
    ∧ (∀ (u : User) (mt : String) (r : RuleRecord),
      (usernameGate r u || wordLimitGate r mt) = true →
      findMatch u mt false [r] = none) := by
  constructor
  · intro u mt b r rest hact hgate
    cases hug : usernameGate r u
    · have hwl : wordLimitGate r mt = true := by simp_all
      simp [findMatch, hact, hug, hwl]
    · simp [findMatch, hact, hug]
  · intro u mt r hgate
    by_cases hact : r.is_active.getD false = true
    · cases hug : usernameGate r u
      · have hwl : wordLimitGate r mt = true := by simp_all
        simp [findMatch, hact, hug, hwl]
      · simp [findMatch, hact, hug]
    · have hact2 : r.is_active.getD false = false := by
        cases hx : r.is_active.getD false <;> simp_all
      simp [findMatch, hact2]

/-- An active exact rule on "foo" with a word limit of 5. -/
def c6r1 : RuleRecord := ⟨some true, some "exact", some 5, none, some "foo", some 3⟩

/-- An active exact rule on "zzz" with no gates. -/
def c6r2 : RuleRecord := ⟨some true, some "exact", none, none, some "zzz", some 4⟩

/-- A three-word group message "foo b c" from a named sender. -/
def c6msg : Message := ⟨56, none, exChat, some exUserNamed, some "foo b c", none, 1700000100⟩

/-- The store holding rules `[c6r1, c6r2]`. -/
def c6store : Store := storeOf (RulesValue.rules [c6r1, c6r2])

/-- Counterexample to claim C6 as stated: with rules `[c6r1, c6r2]` and the
three-word text "foo b c", rule 1 is the only rule whose candidate matches
and it is skipped by its word-limit gate — yet the handler pushes a
notification (for rule 2, whose own candidate is false), so "gate-skipped
only candidate implies no notification" fails. -/
theorem c6_counterexample :
    candidateMatch c6r1 "foo b c" = true
    ∧ wordLimitGate c6r1 "foo b c" = true
    ∧ candidateMatch c6r2 "foo b c" = false
    ∧ (handleBody c6msg 0 c6store).pushedTo = some (some 4)
    ∧ (handleBody c6msg 0 c6store).store.queues (some 4)
        = [buildPushData c6msg exUserNamed "foo b c" "zzz"] := by
  refine ⟨by decide, by decide, by decide, by decide, by decide⟩

/-! ## Claim C7 -/

/-- Claim C7: the candidate test is, for pattern `exact`, case-sensitive
literal substring containment of the raw keyword in the raw text; for
`fuzzy`, containment of the lower-cased keyword in the lower-cased text;
for any other pattern value the candidate is false and the rule contributes
nothing to the latch. -/
theorem c7_candidate_semantics (r : RuleRecord) (mt : String) :
    (r.match_pattern.getD "exact" = "exact" →
      (candidateMatch r mt = true ↔ (r.keyword.getD "").data <:+: mt.data))
    ∧ (r.match_pattern.getD "exact" = "fuzzy" →
      (candidateMatch r mt = true ↔
        (lowerStr (r.keyword.getD "")).data <:+: (lowerStr mt).data))
    ∧ (r.match_pattern.getD "exact" ≠ "exact" → r.match_pattern.getD "exact" ≠ "fuzzy" →
      candidateMatch r mt = false ∧ ∀ b : Bool, stepLatch mt b r = b) := by
  refine ⟨?_, ?_, ?_⟩
  · intro hp
    simp only [candidateMatch, strContains, hp, if_pos]
    exact containsSub_iff_infix (r.keyword.getD "").data mt.data
  · intro hp
    simp only [candidateMatch, strContains, hp]
    norm_num
    exact containsSub_iff_infix (lowerStr (r.keyword.getD "")).data (lowerStr mt).data
  · intro h1 h2
    refine ⟨by simp [candidateMatch, h1, h2], ?_⟩
    intro b
    simp [stepLatch, candidateMatch, h1, h2]

/-! ## Claim C8 -/

/-- Claim C8: a rule whose `isActive` flag is false (or absent, defaulting
to false) is never the selected match, and an inactive rule is skipped
before the candidate computation and the gate checks, leaving the latch and
the rest of the iteration exactly as if the rule were not there. -/
theorem c8_inactive_never_selected :
    (∀ (u : User) (mt : String) (b : Bool) (rs : List RuleRecord) (r : RuleRecord),
      findMatch u mt b rs = some r → r.is_active.getD false = true)
    ∧ (∀ (u : User) (mt : String) (b : Bool) (r : RuleRecord) (rest : List RuleRecord),
      r.is_active.getD false = false → findMatch u mt b (r :: rest) = findMatch u mt b rest) := by
  constructor
  · intro u mt b rs r h
    exact findMatch_some_active h
  · intro u mt b r rest h
    simp [findMatch, h]

/-! ## Claim C9 -/

/-- Claim C9: on a match, the handler appends to the matched rule's
recipient queue exactly the record built by `buildPushData` from the
message, its sender, the computed message text and the matched rule's
keyword, and that record carries every documented field unchanged:
message id and link, chat title/username/type/id, sender
username/full name/id, text, the numeric epoch-seconds timestamp, and
`matchedKeyword` equal to the matching rule's keyword.  The record is a
pure function of the message and the rule, so re-evaluating the same
message against the same rule set yields the identical record. -/
theorem c9_notification_fields (m : Message) (u : User) (now : Int) (s : Store)
    (rs : List RuleRecord) (r : RuleRecord)
    (hu : m.from_user = some u) (hself : u.is_self = false)
    (htext : messageText m ≠ "") (hpriv : m.chat.type_value ≠ "private")
    (hbot : u.is_bot = false) (hget : s.getFails = false)
    (hrules : s.rulesValue = RulesValue.rules rs)
    (hmatch : findMatch u (messageText m) false rs = some r)
    (hrp : s.rpushFails = false) :
    (handleBody m now s).store.queues r.user_id
      = s.queues r.user_id ++ [buildPushData m u (messageText m) (r.keyword.getD "")]
    ∧ (buildPushData m u (messageText m) (r.keyword.getD "")).message_id = m.id
    ∧ (buildPushData m u (messageText m) (r.keyword.getD "")).message_link = m.link
    ∧ (buildPushData m u (messageText m) (r.keyword.getD "")).chat_title = m.chat.title
    ∧ (buildPushData m u (messageText m) (r.keyword.getD "")).chat_username = m.chat.username
    ∧ (buildPushData m u (messageText m) (r.keyword.getD "")).chat_type = m.chat.type_value
    ∧ (buildPushData m u (messageText m) (r.keyword.getD "")).chat_id = m.chat.id
    ∧ (buildPushData m u (messageText m) (r.keyword.getD "")).user_name = u.username
    ∧ (buildPushData m u (messageText m) (r.keyword.getD "")).user_full_name = u.full_name
    ∧ (buildPushData m u (messageText m) (r.keyword.getD "")).user_id = u.id
    ∧ (buildPushData m u (messageText m) (r.keyword.getD "")).text = messageText m
    ∧ (buildPushData m u (messageText m) (r.keyword.getD "")).date = m.date
    ∧ (buildPushData m u (messageText m) (r.keyword.getD "")).matched_keyword
        = r.keyword.getD "" := by
  refine ⟨?_, rfl, rfl, rfl, rfl, rfl, rfl, rfl, rfl, rfl, rfl, rfl, rfl⟩
  unfold handleBody
  rw [hu]
  simp only [hself, htext, hpriv, hbot, hget, hrules, hmatch, hrp]
  simp only [Bool.false_eq_true, if_false, ne_eq, not_false_eq_true, if_neg htext,
    if_neg hpriv]
  cases hex : s.expireFails
  · simp [expireKey, rpushQueue]
  · simp [rpushQueue]

/-! ## Claim C10 -/

/-- Claim C10: the code enforces no non-empty-keyword invariant: a rule
record with a missing or empty keyword field defaults to the empty string,
and under the default `exact` pattern the empty keyword is a substring of
every text, so such a rule candidate-matches every message it is evaluated
against; a rule record missing `is_active` defaults to inactive and is
always skipped. -/
theorem c10_default_fields :
    (∀ (mt : String) (r : RuleRecord),
      (r.keyword = none ∨ r.keyword = some "") →
      r.match_pattern.getD "exact" = "exact" →
      candidateMatch r mt = true)
    ∧ (∀ (u : User) (mt : String) (b : Bool) (r : RuleRecord) (rest : List RuleRecord),
      r.is_active = none → findMatch u mt b (r :: rest) = findMatch u mt b rest) := by
  constructor
  · intro mt r hk hp
    have hkw : r.keyword.getD "" = "" := by rcases hk with h | h <;> simp [h]
    simp only [candidateMatch, strContains, hp, hkw, if_pos]
    exact containsSub_nil_left mt.data
  · intro u mt b r rest h
    simp [findMatch, h]

/-- An active fuzzy rule on "FOO" owned by user 9. -/
def c9rule : RuleRecord := ⟨some true, some "fuzzy", none, none, some "FOO", some 9⟩

/-- The store holding only `c9rule`. -/
def c9store : Store := storeOf (RulesValue.rules [c9rule])

/-- Witness for C9 at a concrete input: the fuzzy rule "FOO" matches the
message "foo bar" and the full handler appends exactly the built record to
user 9's queue. -/
theorem c9_witness :
    (handleBody exMsgFoo 5 c9store).store.queues (some 9)
      = [buildPushData exMsgFoo exUserNoName (messageText exMsgFoo) "FOO"]
    ∧ (buildPushData exMsgFoo exUserNoName (messageText exMsgFoo) "FOO").message_id = exMsgFoo.id
    ∧ (buildPushData exMsgFoo exUserNoName (messageText exMsgFoo) "FOO").message_link = exMsgFoo.link
    ∧ (buildPushData exMsgFoo exUserNoName (messageText exMsgFoo) "FOO").chat_title = exMsgFoo.chat.title
    ∧ (buildPushData exMsgFoo exUserNoName (messageText exMsgFoo) "FOO").chat_username = exMsgFoo.chat.username
    ∧ (buildPushData exMsgFoo exUserNoName (messageText exMsgFoo) "FOO").chat_type = exMsgFoo.chat.type_value
    ∧ (buildPushData exMsgFoo exUserNoName (messageText exMsgFoo) "FOO").chat_id = exMsgFoo.chat.id
    ∧ (buildPushData exMsgFoo exUserNoName (messageText exMsgFoo) "FOO").user_name = exUserNoName.username
    ∧ (buildPushData exMsgFoo exUserNoName (messageText exMsgFoo) "FOO").user_full_name = exUserNoName.full_name
    ∧ (buildPushData exMsgFoo exUserNoName (messageText exMsgFoo) "FOO").user_id = exUserNoName.id
    ∧ (buildPushData exMsgFoo exUserNoName (messageText exMsgFoo) "FOO").text = messageText exMsgFoo
    ∧ (buildPushData exMsgFoo exUserNoName (messageText exMsgFoo) "FOO").date = exMsgFoo.date
    ∧ (buildPushData exMsgFoo exUserNoName (messageText exMsgFoo) "FOO").matched_keyword = "FOO" :=
  c9_notification_fields exMsgFoo exUserNoName 5 c9store [c9rule] c9rule
    rfl rfl (by decide) (by decide) rfl rfl rfl (by decide) rfl
